import Mathlib

/-!
Verification of the line-geometry core of the chart line-marker plugin,
embedded shallowly from `src/src/types/line.js`.  The exact-arithmetic
parts (viewport overlap test, clipping, segment hit-testing, center
point, element-property resolution) are embedded over ℚ; the label
placement pipeline, which uses trigonometric functions, is embedded
over ℝ.
-/

namespace CJSA

/-- A 2-D point, mirroring the `{x, y}` records of the source. -/
structure Point (α : Type) where
  x : α
  y : α

/-- The resolved endpoints `{x, y, x2, y2}` of a line element. -/
structure Line (α : Type) where
  x : α
  y : α
  x2 : α
  y2 : α

/-- The viewport rectangle `{top, right, bottom, left}` (the chart area). -/
structure Area (α : Type) where
  top : α
  right : α
  bottom : α
  left : α

/-- Result record of `limitLineToArea` and `resolveElementProperties`:
`{x, y, x2, y2, width, height}`. -/
structure LineProps (α : Type) where
  x : α
  y : α
  x2 : α
  y2 : α
  width : α
  height : α

/-- Source line 6: `pointInLine(p1, p2, t)`. -/
def pointInLine {α : Type} [Field α] (p1 p2 : Point α) (t : α) : Point α :=
  ⟨p1.x + t * (p2.x - p1.x), p1.y + t * (p2.y - p1.y)⟩

/-- Source line 7: `interpolateX(y, p1, p2)`. -/
def interpolateX (y : ℚ) (p1 p2 : Point ℚ) : ℚ :=
  (pointInLine p1 p2 |(y - p1.y) / (p2.y - p1.y)|).x

/-- Source line 8: `interpolateY(x, p1, p2)`. -/
def interpolateY (x : ℚ) (p1 p2 : Point ℚ) : ℚ :=
  (pointInLine p1 p2 |(x - p1.x) / (p2.x - p1.x)|).y

/-- Source lines 11-18: the bounding-box overlap test between the
endpoints of a line and the chart area. -/
def isLineInArea (l : Line ℚ) (a : Area ℚ) : Bool :=
  !((decide (l.x < a.left) && decide (l.x2 < a.left)) ||
    (decide (l.x > a.right) && decide (l.x2 > a.right)) ||
    (decide (l.y < a.top) && decide (l.y2 < a.top)) ||
    (decide (l.y > a.bottom) && decide (l.y2 > a.bottom)))

/-- Source lines 20-38: clamp one endpoint to the chart area, walking the
four edges in order (left, right, top, bottom) and re-interpolating the
perpendicular coordinate along the segment towards `p2` at each clamp.
The sequential reassignments of the JS `x` and `y` variables are modelled
by the numbered `let` bindings. -/
def limitPointToArea (p p2 : Point ℚ) (a : Area ℚ) : Point ℚ :=
  let y1 := if p.x < a.left then interpolateY a.left p p2 else p.y
  let x1 := if p.x < a.left then a.left else p.x
  let y2 := if x1 > a.right then interpolateY a.right ⟨x1, y1⟩ p2 else y1
  let x2 := if x1 > a.right then a.right else x1
  let x3 := if y2 < a.top then interpolateX a.top ⟨x2, y2⟩ p2 else x2
  let y3 := if y2 < a.top then a.top else y2
  let x4 := if y3 > a.bottom then interpolateX a.bottom ⟨x3, y3⟩ p2 else x3
  let y4 := if y3 > a.bottom then a.bottom else y3
  ⟨x4, y4⟩

/-- Source lines 40-44: clip both endpoints, each against the *other*
original endpoint, and report the resulting extent. -/
def limitLineToArea (p1 p2 : Point ℚ) (a : Area ℚ) : LineProps ℚ :=
  let q1 := limitPointToArea p1 p2 a
  let q2 := limitPointToArea p2 p1 a
  ⟨q1.x, q1.y, q2.x, q2.y, |q2.x - q1.x|, |q2.y - q1.y|⟩

/-- Source lines 47-67: the segment hit test `intersects(x, y, epsilon)`,
with `sqr v = v * v`; a zero-length segment sets `t = -1` so that the
first branch is taken. -/
def intersects (l : Line ℚ) (x y ε : ℚ) : Bool :=
  let dx := l.x2 - l.x
  let dy := l.y2 - l.y
  let lenSq := dx * dx + dy * dy
  let t : ℚ := if lenSq = 0 then -1 else ((x - l.x) * dx + (y - l.y) * dy) / lenSq
  let xx := if t < 0 then l.x else if t > 1 then l.x2 else l.x + t * dx
  let yy := if t < 0 then l.y else if t > 1 then l.y2 else l.y + t * dy
  decide ((x - xx) * (x - xx) + (y - yy) * (y - yy) < ε)

/-- Source lines 94-99: `getCenterPoint()`. -/
def getCenterPoint (l : Line ℚ) : Point ℚ :=
  ⟨(l.x2 + l.x) / 2, (l.y2 + l.y) / 2⟩

/-- Source lines 156-159, the final step of `resolveElementProperties`:
once the scales have produced the raw pixel endpoints `x, y, x2, y2`,
clip them to the chart area when the bounding boxes overlap, and
otherwise return them unchanged together with the raw extent. -/
def resolveElementProperties (x y x2 y2 : ℚ) (a : Area ℚ) : LineProps ℚ :=
  if isLineInArea ⟨x, y, x2, y2⟩ a then limitLineToArea ⟨x, y⟩ ⟨x2, y2⟩ a
  else ⟨x, y, x2, y2, |x2 - x|, |y2 - y|⟩

/-- Distance stated by the spec for the hit test (§4.3): project onto the
infinite line, clamp the parameter `t` to `[0, 1]`, and take the squared
distance to the resulting nearest point of the segment.  This definition
follows the words of the spec and is compared against `intersects`. -/
def segmentSqDistSpec (l : Line ℚ) (x y : ℚ) : ℚ :=
  let dx := l.x2 - l.x
  let dy := l.y2 - l.y
  let t := min 1 (max 0 (((x - l.x) * dx + (y - l.y) * dy) / (dx * dx + dy * dy)))
  let nx := l.x + t * dx
  let ny := l.y + t * dy
  (x - nx) * (x - nx) + (y - ny) * (y - ny)

/-- The `label.rotation` option: a number in degrees, or the sentinel
`auto`. -/
inductive RotationOpt
  | auto : RotationOpt
  | deg (value : ℝ) : RotationOpt

/-- The label options consumed by the placement pipeline (the sub-record
of `options.label` that it reads): `{position, xAdjust, yAdjust,
xPadding, yPadding, rotation}`. -/
structure LabelOpts where
  position : String
  xAdjust : ℝ
  yAdjust : ℝ
  xPadding : ℝ
  yPadding : ℝ
  rotation : RotationOpt

/-- A width/height pair `{w, h}`. -/
structure SizeWH where
  w : ℝ
  h : ℝ

/-- Result of `spaceAround`: clearances and directions `{x, y, dx, dy}`. -/
structure SpaceInfo where
  x : ℝ
  y : ℝ
  dx : ℝ
  dy : ℝ

/-- Argument record of `adjustLabelCoordinate`: `{size, min, max, padding}`. -/
structure CoordSizes where
  size : ℝ
  min : ℝ
  max : ℝ
  padding : ℝ

/-- The label pose record `{x, y, width, height, rotation}`. -/
structure LabelRect where
  x : ℝ
  y : ℝ
  width : ℝ
  height : ℝ
  rotation : ℝ

/-- Models the JS builtin `Math.atan2` (range `[-π, π]`) as the complex
argument. -/
noncomputable def atan2 (y x : ℝ) : ℝ := Complex.arg ⟨x, y⟩

/-- Source lines 213-218: `calculateAutoRotation(line)`, flipping the raw
angle by π when it leaves `[-π/2, π/2]`. -/
noncomputable def calculateAutoRotation (l : Line ℝ) : ℝ :=
  let rotation := atan2 (l.y2 - l.y) (l.x2 - l.x)
  if rotation > Real.pi / 2 then rotation - Real.pi
  else if rotation < Real.pi / (-2) then rotation + Real.pi
  else rotation

/-- The chart-library helper `toRadians` (external dependency of the
source): degrees × π / 180. -/
noncomputable def toRadians (degrees : ℝ) : ℝ := degrees * (Real.pi / 180)

/-- Source line 334: pick `calculateAutoRotation` for the `auto`
sentinel, otherwise convert the configured degrees to radians. -/
noncomputable def resolveRotation (label : LabelOpts) (l : Line ℝ) : ℝ :=
  match label.rotation with
  | RotationOpt.auto => calculateAutoRotation l
  | RotationOpt.deg d => toRadians d

/-- Source lines 350-357: the axis-aligned footprint of the rotated
label. -/
noncomputable def rotatedSize (width height rotation : ℝ) : SizeWH :=
  ⟨|width * Real.cos rotation| + |height * Real.sin rotation|,
   |width * Real.sin rotation| + |height * Real.cos rotation|⟩

/-- Source lines 380-392: `spaceAround(line, chartArea)`. -/
noncomputable def spaceAround (l : Line ℝ) (a : Area ℝ) : SpaceInfo :=
  let t := min l.y l.y2 - a.top
  let lft := min l.x l.x2 - a.left
  let b := a.bottom - max l.y l.y2
  let r := a.right - max l.x l.x2
  ⟨min lft r, min t b, if lft < r then 1 else -1, if t < b then 1 else -1⟩

/-- Modelled from the spec: `clamp` is imported from the repository file
`src/helpers.js`, which is not included under `src/`; per §4.4 the
adjustment is "capped" between the given bounds, so
`clamp(v, lo, hi) = min(max(v, lo), hi)`. -/
noncomputable def clamp (v lo hi : ℝ) : ℝ := min (max v lo) hi

/-- Source lines 371-378: `calculateTAdjust`.  In JS, `(lineW > 0) && e`
evaluates to `false` when `lineW ≤ 0` and `Math.max` coerces `false` to
0, modelled here by an `if` yielding 0. -/
noncomputable def calculateTAdjust (lineSize labelSize : SizeWH) (label : LabelOpts)
    (space : SpaceInfo) : ℝ :=
  let lineW := lineSize.w * space.dx
  let lineH := lineSize.h * space.dy
  let x := if lineW > 0 then (labelSize.w / 2 + label.xPadding - space.x) / lineW else 0
  let y := if lineH > 0 then (labelSize.h / 2 + label.yPadding - space.y) / lineH else 0
  clamp (max x y) 0 0.25

/-- Source lines 359-369: `calculateT(line, position, rotSize,
chartArea)`; `label` is the source term `line.options.label`. -/
noncomputable def calculateT (l : Line ℝ) (label : LabelOpts) (position : String)
    (rotSize : SizeWH) (a : Area ℝ) : ℝ :=
  let space := spaceAround l a
  if position = "start" then
    calculateTAdjust ⟨l.x2 - l.x, l.y2 - l.y⟩ rotSize label space
  else if position = "end" then
    1 - calculateTAdjust ⟨l.x - l.x2, l.y - l.y2⟩ rotSize label space
  else 0.5

/-- Source lines 394-412: `adjustLabelCoordinate(coordinate, labelSizes)`. -/
noncomputable def adjustLabelCoordinate (coordinate : ℝ) (s : CoordSizes) : ℝ :=
  let halfSize := s.size / 2
  if s.size > s.max - s.min then (s.max + s.min) / 2
  else
    let c1 := if s.min ≥ coordinate - s.padding - halfSize then s.min + s.padding + halfSize
      else coordinate
    if s.max ≤ c1 + s.padding + halfSize then s.max - s.padding - halfSize else c1

/-- Source lines 329-348: `calculateLabelPosition(line, width, height,
chartArea)`; `label` is the source term `line.options.label`. -/
noncomputable def calculateLabelPosition (l : Line ℝ) (label : LabelOpts)
    (width height : ℝ) (a : Area ℝ) : LabelRect :=
  let rotation := resolveRotation label l
  let size := rotatedSize width height rotation
  let t := calculateT l label label.position size a
  let pt := pointInLine ⟨l.x, l.y⟩ ⟨l.x2, l.y2⟩ t
  let xCS : CoordSizes := ⟨size.w, a.left, a.right, label.xPadding⟩
  let yCS : CoordSizes := ⟨size.h, a.top, a.bottom, label.yPadding⟩
  ⟨adjustLabelCoordinate pt.x xCS + label.xAdjust,
   adjustLabelCoordinate pt.y yCS + label.yAdjust, width, height, rotation⟩

/- ------------------------------------------------------------------ -/
/- Theorems                                                           -/
/- ------------------------------------------------------------------ -/

lemma limitPointToArea_y_mem (p p2 : Point ℚ) (a : Area ℚ) (htb : a.top ≤ a.bottom) :
    a.top ≤ (limitPointToArea p p2 a).y ∧ (limitPointToArea p p2 a).y ≤ a.bottom := by
  simp only [limitPointToArea]
  split_ifs <;> constructor <;> first | rfl | linarith

lemma limitPointToArea_id (p q : Point ℚ) (a : Area ℚ)
    (h1 : a.left ≤ p.x) (h2 : p.x ≤ a.right) (h3 : a.top ≤ p.y) (h4 : p.y ≤ a.bottom) :
    limitPointToArea p q a = p := by
  have n1 : ¬ p.x < a.left := not_lt.2 h1
  have n2 : ¬ p.x > a.right := not_lt.2 h2
  have n3 : ¬ p.y < a.top := not_lt.2 h3
  have n4 : ¬ p.y > a.bottom := not_lt.2 h4
  simp [limitPointToArea, n1, n2, n3, n4]

/-- C1 (amended): for every segment whose bounding box overlaps the
viewport on both axes (and with top ≤ bottom), both endpoints produced by
the clipper satisfy top ≤ y ≤ bottom.  The original claim also bounded
the x-coordinates by left and right; that part is false, because the
top/bottom clamp recomputes x by interpolation without re-checking the
horizontal bounds. -/
theorem limitLineToArea_y_in_viewport (p1 p2 : Point ℚ) (a : Area ℚ)
    (hov : isLineInArea ⟨p1.x, p1.y, p2.x, p2.y⟩ a = true) (htb : a.top ≤ a.bottom) :
    (a.top ≤ (limitLineToArea p1 p2 a).y ∧ (limitLineToArea p1 p2 a).y ≤ a.bottom) ∧
    (a.top ≤ (limitLineToArea p1 p2 a).y2 ∧ (limitLineToArea p1 p2 a).y2 ≤ a.bottom) := by
  have e1 := limitPointToArea_y_mem p1 p2 a htb
  have e2 := limitPointToArea_y_mem p2 p1 a htb
  exact ⟨e1, e2⟩

/-- Witness for C1 at the segment (90,-10)-(200,40) in the viewport
[0,100] × [0,100]. -/
theorem limitLineToArea_y_in_viewport_witness :
    ((0:ℚ) ≤ (limitLineToArea ⟨90, -10⟩ ⟨200, 40⟩ ⟨0, 100, 100, 0⟩).y ∧
      (limitLineToArea ⟨90, -10⟩ ⟨200, 40⟩ ⟨0, 100, 100, 0⟩).y ≤ 100) ∧
    ((0:ℚ) ≤ (limitLineToArea ⟨90, -10⟩ ⟨200, 40⟩ ⟨0, 100, 100, 0⟩).y2 ∧
      (limitLineToArea ⟨90, -10⟩ ⟨200, 40⟩ ⟨0, 100, 100, 0⟩).y2 ≤ 100) :=
  limitLineToArea_y_in_viewport ⟨90, -10⟩ ⟨200, 40⟩ ⟨0, 100, 100, 0⟩
    (by norm_num [isLineInArea]) (by norm_num)

/-- C1 counterexample: the bounding box of the segment (90,-10)-(200,40)
overlaps the viewport [0,100] × [0,100], yet the clipper moves the first
endpoint to (112, 0), whose x-coordinate exceeds right = 100, so the
claimed invariant left ≤ x ≤ right fails. -/
theorem limitLineToArea_x_escape :
    isLineInArea ⟨90, -10, 200, 40⟩ ⟨0, 100, 100, 0⟩ = true ∧
    (limitLineToArea ⟨90, -10⟩ ⟨200, 40⟩ ⟨0, 100, 100, 0⟩).x = 112 ∧
    ¬ (limitLineToArea ⟨90, -10⟩ ⟨200, 40⟩ ⟨0, 100, 100, 0⟩).x ≤
      (⟨0, 100, 100, 0⟩ : Area ℚ).right := by
  norm_num [isLineInArea, limitLineToArea, limitPointToArea, interpolateX, interpolateY,
    pointInLine, abs_eq_max_neg, max_def, min_def]

lemma intersects_iff_aux (l : Line ℚ) (x y ε : ℚ) :
    intersects l x y ε = true ↔ segmentSqDistSpec l x y < ε := by
  simp only [intersects, segmentSqDistSpec, decide_eq_true_eq]
  by_cases h0 : (l.x2 - l.x) * (l.x2 - l.x) + (l.y2 - l.y) * (l.y2 - l.y) = 0
  · have ex : l.x2 = l.x := by
      nlinarith [mul_self_nonneg (l.x2 - l.x), mul_self_nonneg (l.y2 - l.y)]
    have ey : l.y2 = l.y := by
      nlinarith [mul_self_nonneg (l.x2 - l.x), mul_self_nonneg (l.y2 - l.y)]
    rw [ex, ey]
    norm_num [min_def, max_def]
  · set q := ((x - l.x) * (l.x2 - l.x) + (y - l.y) * (l.y2 - l.y)) /
      ((l.x2 - l.x) * (l.x2 - l.x) + (l.y2 - l.y) * (l.y2 - l.y)) with hqdef
    rw [if_neg h0]
    by_cases hq0 : q < 0
    · rw [if_pos hq0, if_pos hq0, max_eq_left hq0.le,
        min_eq_right (by norm_num : (0:ℚ) ≤ 1)]
      norm_num
    · by_cases hq1 : q > 1
      · rw [if_neg hq0, if_pos hq1, if_neg hq0, if_pos hq1,
          max_eq_right (le_of_lt (lt_trans zero_lt_one hq1)), min_eq_left hq1.le]
        have e1 : l.x + 1 * (l.x2 - l.x) = l.x2 := by ring
        have e2 : l.y + 1 * (l.y2 - l.y) = l.y2 := by ring
        rw [e1, e2]
      · rw [if_neg hq0, if_neg hq1, if_neg hq0, if_neg hq1,
          max_eq_right (not_lt.1 hq0), min_eq_right (not_lt.1 hq1)]

lemma segmentSqDistSpec_midpoint (l : Line ℚ) :
    segmentSqDistSpec l ((l.x + l.x2) / 2) ((l.y + l.y2) / 2) = 0 := by
  simp only [segmentSqDistSpec]
  by_cases h0 : (l.x2 - l.x) * (l.x2 - l.x) + (l.y2 - l.y) * (l.y2 - l.y) = 0
  · have ex : l.x2 = l.x := by
      nlinarith [mul_self_nonneg (l.x2 - l.x), mul_self_nonneg (l.y2 - l.y)]
    have ey : l.y2 = l.y := by
      nlinarith [mul_self_nonneg (l.x2 - l.x), mul_self_nonneg (l.y2 - l.y)]
    rw [ex, ey]
    norm_num [min_def, max_def]
  · have hq : ((l.x + l.x2) / 2 - l.x) * (l.x2 - l.x) + ((l.y + l.y2) / 2 - l.y) * (l.y2 - l.y) =
        ((l.x2 - l.x) * (l.x2 - l.x) + (l.y2 - l.y) * (l.y2 - l.y)) / 2 := by ring
    rw [hq, div_right_comm, div_self h0,
      max_eq_right (by norm_num : (0:ℚ) ≤ 1 / 2), min_eq_right (by norm_num : (1:ℚ) / 2 ≤ 1)]
    ring

/-- C2 (amended): `intersects(x, y, ε)` returns true exactly when the
squared distance from (x, y) to the nearest point of the segment (with
the projection parameter clamped to [0, 1]) is strictly below ε; in
particular the segment midpoint is in-range for every ε > 0.  The
original claim stated the midpoint case for every ε ≥ 0, which fails at
ε = 0 because the comparison is strict. -/
theorem intersects_sqdist_characterisation :
    (∀ (l : Line ℚ) (x y ε : ℚ), intersects l x y ε = true ↔ segmentSqDistSpec l x y < ε) ∧
    (∀ (l : Line ℚ) (ε : ℚ), 0 < ε →
      intersects l ((l.x + l.x2) / 2) ((l.y + l.y2) / 2) ε = true) := by
  refine ⟨intersects_iff_aux, fun l ε hε => ?_⟩
  rw [intersects_iff_aux, segmentSqDistSpec_midpoint]
  exact hε

/-- Witness for C2 at the segment (0,0)-(2,0), midpoint (1,0), ε = 1. -/
theorem intersects_sqdist_characterisation_witness :
    (0:ℚ) < 1 ∧ intersects ⟨0, 0, 2, 0⟩ ((0 + 2) / 2) ((0 + 0) / 2) 1 = true :=
  ⟨by norm_num, intersects_sqdist_characterisation.2 ⟨0, 0, 2, 0⟩ 1 (by norm_num)⟩

/-- C2 counterexample: for the segment (0,0)-(2,0) and ε = 0 (which
satisfies ε ≥ 0), the exact midpoint (1, 0) is NOT in-range, because the
squared distance 0 is compared strictly against ε = 0. -/
theorem intersects_midpoint_eps_zero_false :
    (0:ℚ) ≤ 0 ∧ intersects ⟨0, 0, 2, 0⟩ ((0 + 2) / 2) ((0 + 0) / 2) 0 = false := by
  norm_num [intersects]

/-- C3: when the bounding box of the resolved line does not overlap the
viewport on both axes, `resolveElementProperties` returns the raw
endpoint coordinates unchanged together with width = |x2 - x| and
height = |y2 - y|, and the overlap pre-check still reports no
intersection on that result. -/
theorem resolveElementProperties_offscreen (x y x2 y2 : ℚ) (a : Area ℚ)
    (h : isLineInArea ⟨x, y, x2, y2⟩ a = false) :
    resolveElementProperties x y x2 y2 a = ⟨x, y, x2, y2, |x2 - x|, |y2 - y|⟩ ∧
    isLineInArea ⟨(resolveElementProperties x y x2 y2 a).x, (resolveElementProperties x y x2 y2 a).y,
      (resolveElementProperties x y x2 y2 a).x2, (resolveElementProperties x y x2 y2 a).y2⟩ a
      = false := by
  have e : resolveElementProperties x y x2 y2 a = ⟨x, y, x2, y2, |x2 - x|, |y2 - y|⟩ := by
    simp [resolveElementProperties, h]
  refine ⟨e, ?_⟩
  rw [e]
  exact h

/-- Witness for C3 at a line entirely left of the viewport. -/
theorem resolveElementProperties_offscreen_witness :
    resolveElementProperties (-30) 50 (-10) 50 ⟨0, 100, 100, 0⟩ =
      ⟨-30, 50, -10, 50, |(-10:ℚ) - (-30)|, |(50:ℚ) - 50|⟩ ∧
    isLineInArea ⟨(resolveElementProperties (-30) 50 (-10) 50 ⟨0, 100, 100, 0⟩).x,
      (resolveElementProperties (-30) 50 (-10) 50 ⟨0, 100, 100, 0⟩).y,
      (resolveElementProperties (-30) 50 (-10) 50 ⟨0, 100, 100, 0⟩).x2,
      (resolveElementProperties (-30) 50 (-10) 50 ⟨0, 100, 100, 0⟩).y2⟩ ⟨0, 100, 100, 0⟩
      = false :=
  resolveElementProperties_offscreen (-30) 50 (-10) 50 ⟨0, 100, 100, 0⟩ (by norm_num [isLineInArea])

/-- C6: clipping is idempotent on in-viewport lines: when both endpoints
already satisfy left ≤ x ≤ right and top ≤ y ≤ bottom, the clipper
returns them unchanged. -/
theorem limitLineToArea_idempotent (p1 p2 : Point ℚ) (a : Area ℚ)
    (h1 : a.left ≤ p1.x) (h2 : p1.x ≤ a.right) (h3 : a.top ≤ p1.y) (h4 : p1.y ≤ a.bottom)
    (h5 : a.left ≤ p2.x) (h6 : p2.x ≤ a.right) (h7 : a.top ≤ p2.y) (h8 : p2.y ≤ a.bottom) :
    (limitLineToArea p1 p2 a).x = p1.x ∧ (limitLineToArea p1 p2 a).y = p1.y ∧
    (limitLineToArea p1 p2 a).x2 = p2.x ∧ (limitLineToArea p1 p2 a).y2 = p2.y := by
  have e1 := limitPointToArea_id p1 p2 a h1 h2 h3 h4
  have e2 := limitPointToArea_id p2 p1 a h5 h6 h7 h8
  simp [limitLineToArea, e1, e2]

/-- Witness for C6 at the in-viewport segment (10,10)-(20,30). -/
theorem limitLineToArea_idempotent_witness :
    (limitLineToArea ⟨10, 10⟩ ⟨20, 30⟩ ⟨0, 100, 100, 0⟩).x = 10 ∧
    (limitLineToArea ⟨10, 10⟩ ⟨20, 30⟩ ⟨0, 100, 100, 0⟩).y = 10 ∧
    (limitLineToArea ⟨10, 10⟩ ⟨20, 30⟩ ⟨0, 100, 100, 0⟩).x2 = 20 ∧
    (limitLineToArea ⟨10, 10⟩ ⟨20, 30⟩ ⟨0, 100, 100, 0⟩).y2 = 30 :=
  limitLineToArea_idempotent ⟨10, 10⟩ ⟨20, 30⟩ ⟨0, 100, 100, 0⟩ (by norm_num) (by norm_num)
    (by norm_num) (by norm_num) (by norm_num) (by norm_num) (by norm_num) (by norm_num)

/-- C9: the zero-length guard of `intersects`: when the two endpoints
coincide (squared length 0), the parameter is set to -1 so no division
happens, and the result is exactly whether the squared distance from the
query point to that single endpoint is strictly below ε.  (All embedded
geometry functions are total Lean functions.) -/
theorem intersects_degenerate (l : Line ℚ) (x y ε : ℚ)
    (hx : l.x2 = l.x) (hy : l.y2 = l.y) :
    intersects l x y ε = decide ((x - l.x) * (x - l.x) + (y - l.y) * (y - l.y) < ε) := by
  norm_num [intersects, hx, hy]

/-- Witness for C9 at the degenerate segment (3,4)-(3,4) and query (5,4). -/
theorem intersects_degenerate_witness :
    intersects ⟨3, 4, 3, 4⟩ 5 4 5 =
      decide (((5:ℚ) - 3) * ((5:ℚ) - 3) + ((4:ℚ) - 4) * ((4:ℚ) - 4) < 5) :=
  intersects_degenerate ⟨3, 4, 3, 4⟩ 5 4 5 rfl rfl

/-- C10: `getCenterPoint` always returns the arithmetic midpoint of the
resolved endpoints; moreover, for a concrete off-viewport line the
resolver leaves the endpoints unclipped, so the reported center point
(-20, 50) lies outside the viewport (left of left = 0). -/
theorem getCenterPoint_midpoint :
    (∀ l : Line ℚ, getCenterPoint l = ⟨(l.x + l.x2) / 2, (l.y + l.y2) / 2⟩) ∧
    (isLineInArea ⟨-30, 50, -10, 50⟩ ⟨0, 100, 100, 0⟩ = false ∧
      getCenterPoint ⟨(resolveElementProperties (-30) 50 (-10) 50 ⟨0, 100, 100, 0⟩).x,
        (resolveElementProperties (-30) 50 (-10) 50 ⟨0, 100, 100, 0⟩).y,
        (resolveElementProperties (-30) 50 (-10) 50 ⟨0, 100, 100, 0⟩).x2,
        (resolveElementProperties (-30) 50 (-10) 50 ⟨0, 100, 100, 0⟩).y2⟩ = ⟨-20, 50⟩ ∧
      (-20:ℚ) < (⟨0, 100, 100, 0⟩ : Area ℚ).left) := by
  constructor
  · intro l
    simp only [getCenterPoint, Point.mk.injEq]
    constructor <;> ring
  · refine ⟨by norm_num [isLineInArea], ?_, by norm_num⟩
    norm_num [resolveElementProperties, isLineInArea, getCenterPoint, Point.mk.injEq]

/-- C7: the label rotation computed under the `auto` setting always lies
within [-π/2, π/2]. -/
theorem calculateAutoRotation_in_range (l : Line ℝ) :
    -(Real.pi / 2) ≤ calculateAutoRotation l ∧ calculateAutoRotation l ≤ Real.pi / 2 := by
  have h1 := Complex.neg_pi_lt_arg (⟨l.x2 - l.x, l.y2 - l.y⟩ : ℂ)
  have h2 := Complex.arg_le_pi (⟨l.x2 - l.x, l.y2 - l.y⟩ : ℂ)
  have hp := Real.pi_pos
  simp only [calculateAutoRotation, atan2]
  split_ifs with g1 g2 <;> constructor <;> linarith

lemma calculateTAdjust_mem (ls rs : SizeWH) (label : LabelOpts) (sp : SpaceInfo) :
    0 ≤ calculateTAdjust ls rs label sp ∧ calculateTAdjust ls rs label sp ≤ 0.25 := by
  simp only [calculateTAdjust, clamp]
  exact ⟨le_min (le_max_right _ _) (by norm_num), min_le_right _ _⟩

/-- C4: the placement parameter t is 0.5 for position `center`, lies in
[0, 0.25] for `start`, in [0.75, 1] for `end`, and in all cases lies in
[0, 1]. -/
theorem calculateT_range (l : Line ℝ) (label : LabelOpts) (position : String)
    (rotSize : SizeWH) (a : Area ℝ) :
    (0 ≤ calculateT l label position rotSize a ∧ calculateT l label position rotSize a ≤ 1) ∧
    (position = "center" → calculateT l label position rotSize a = 0.5) ∧
    (position = "start" →
      0 ≤ calculateT l label position rotSize a ∧ calculateT l label position rotSize a ≤ 0.25) ∧
    (position = "end" →
      0.75 ≤ calculateT l label position rotSize a ∧ calculateT l label position rotSize a ≤ 1) := by
  by_cases hs : position = "start"
  · subst hs
    have e : calculateT l label "start" rotSize a =
        calculateTAdjust ⟨l.x2 - l.x, l.y2 - l.y⟩ rotSize label (spaceAround l a) := by
      simp [calculateT]
    have h := calculateTAdjust_mem ⟨l.x2 - l.x, l.y2 - l.y⟩ rotSize label (spaceAround l a)
    rw [e]
    exact ⟨⟨h.1, by linarith [h.2]⟩, fun hc => absurd hc (by decide), fun _ => h,
      fun he => absurd he (by decide)⟩
  · by_cases he : position = "end"
    · subst he
      have e : calculateT l label "end" rotSize a =
          1 - calculateTAdjust ⟨l.x - l.x2, l.y - l.y2⟩ rotSize label (spaceAround l a) := by
        simp [calculateT]
      have h := calculateTAdjust_mem ⟨l.x - l.x2, l.y - l.y2⟩ rotSize label (spaceAround l a)
      rw [e]
      exact ⟨⟨by linarith [h.2], by linarith [h.1]⟩, fun hc => absurd hc (by decide),
        fun hs2 => absurd hs2 (by decide), fun _ => ⟨by linarith [h.2], by linarith [h.1]⟩⟩
    · have e : calculateT l label position rotSize a = 0.5 := by
        simp [calculateT, hs, he]
      rw [e]
      exact ⟨by norm_num, fun _ => rfl, fun hs2 => absurd hs2 hs, fun he2 => absurd he2 he⟩

/-- Witness for C4 at position `center`. -/
theorem calculateT_range_witness :
    calculateT ⟨0, 0, 10, 10⟩ ⟨"center", 0, 0, 6, 6, RotationOpt.deg 0⟩ "center" ⟨1, 1⟩
      ⟨0, 100, 100, 0⟩ = 0.5 :=
  (calculateT_range ⟨0, 0, 10, 10⟩ ⟨"center", 0, 0, 6, 6, RotationOpt.deg 0⟩ "center" ⟨1, 1⟩
    ⟨0, 100, 100, 0⟩).2.1 rfl

lemma adjustLabelCoordinate_nofit (c size mn mx pad : ℝ) (h : size > mx - mn) :
    adjustLabelCoordinate c ⟨size, mn, mx, pad⟩ = (mx + mn) / 2 := by
  simp only [adjustLabelCoordinate]
  rw [if_pos h]

lemma adjustLabelCoordinate_keep (c size mn mx pad : ℝ) (hfit : size ≤ mx - mn)
    (hlo : mn + pad + size / 2 ≤ c) (hhi : c ≤ mx - pad - size / 2) :
    adjustLabelCoordinate c ⟨size, mn, mx, pad⟩ = c := by
  simp only [adjustLabelCoordinate]
  rw [if_neg (not_lt.2 hfit)]
  split_ifs with g1 g2 <;> linarith

/-- C5: when the rotated footprint of the label exceeds the viewport
extent on an axis (size > max - min), the clamped anchor coordinate on
that axis is the viewport center (max + min) / 2; consequently, a label
wider than the viewport gets anchor x equal to the horizontal center of
the viewport, before the xAdjust offset is added. -/
theorem adjustLabelCoordinate_center :
    (∀ (c : ℝ) (s : CoordSizes), s.size > s.max - s.min →
      adjustLabelCoordinate c s = (s.max + s.min) / 2) ∧
    (∀ (l : Line ℝ) (label : LabelOpts) (w h : ℝ) (a : Area ℝ),
      (rotatedSize w h (resolveRotation label l)).w > a.right - a.left →
      (calculateLabelPosition l label w h a).x = (a.left + a.right) / 2 + label.xAdjust) := by
  constructor
  · intro c s hs
    obtain ⟨sz, mn, mx, pad⟩ := s
    exact adjustLabelCoordinate_nofit c sz mn mx pad hs
  · intro l label w h a hw
    simp only [calculateLabelPosition, pointInLine]
    rw [adjustLabelCoordinate_nofit _ _ _ _ _ hw]
    ring

/-- Witness for C5: a 200-wide unrotated label in a 100-wide viewport is
anchored at the horizontal center 50. -/
theorem adjustLabelCoordinate_center_witness :
    adjustLabelCoordinate 5 ⟨200, 0, 100, 6⟩ = ((100:ℝ) + 0) / 2 ∧
    (calculateLabelPosition ⟨40, 50, 60, 50⟩ ⟨"center", 0, 0, 6, 6, RotationOpt.deg 0⟩ 200 10
      ⟨0, 100, 100, 0⟩).x = ((0:ℝ) + 100) / 2 + 0 := by
  constructor
  · exact adjustLabelCoordinate_center.1 5 ⟨200, 0, 100, 6⟩ (by norm_num)
  · refine adjustLabelCoordinate_center.2 ⟨40, 50, 60, 50⟩ ⟨"center", 0, 0, 6, 6, RotationOpt.deg 0⟩
      200 10 ⟨0, 100, 100, 0⟩ ?_
    have hrot : resolveRotation (⟨"center", 0, 0, 6, 6, RotationOpt.deg 0⟩ : LabelOpts)
        (⟨40, 50, 60, 50⟩ : Line ℝ) = 0 := by
      simp [resolveRotation, toRadians]
    rw [hrot]
    norm_num [rotatedSize, Real.cos_zero, Real.sin_zero, abs_eq_max_neg, max_def]

/-- C8: with position `center` and zero adjust offsets, when the rotated
footprint of the label fits inside the viewport on both axes and the
segment midpoint is at least padding plus half the footprint away from
every viewport edge, the computed label anchor equals the segment
midpoint. -/
theorem calculateLabelPosition_center_is_midpoint (l : Line ℝ) (label : LabelOpts) (w h : ℝ)
    (a : Area ℝ)
    (hpos : label.position = "center") (hxa : label.xAdjust = 0) (hya : label.yAdjust = 0)
    (hfw : (rotatedSize w h (resolveRotation label l)).w ≤ a.right - a.left)
    (hfh : (rotatedSize w h (resolveRotation label l)).h ≤ a.bottom - a.top)
    (hx1 : a.left + label.xPadding + (rotatedSize w h (resolveRotation label l)).w / 2 ≤
      (l.x + l.x2) / 2)
    (hx2 : (l.x + l.x2) / 2 ≤
      a.right - label.xPadding - (rotatedSize w h (resolveRotation label l)).w / 2)
    (hy1 : a.top + label.yPadding + (rotatedSize w h (resolveRotation label l)).h / 2 ≤
      (l.y + l.y2) / 2)
    (hy2 : (l.y + l.y2) / 2 ≤
      a.bottom - label.yPadding - (rotatedSize w h (resolveRotation label l)).h / 2) :
    (calculateLabelPosition l label w h a).x = (l.x + l.x2) / 2 ∧
    (calculateLabelPosition l label w h a).y = (l.y + l.y2) / 2 := by
  have ht : calculateT l label label.position (rotatedSize w h (resolveRotation label l)) a
      = 0.5 := by
    rw [hpos]
    simp [calculateT]
  simp only [calculateLabelPosition, pointInLine]
  rw [ht]
  have ex : l.x + (0.5:ℝ) * (l.x2 - l.x) = (l.x + l.x2) / 2 := by ring
  have ey : l.y + (0.5:ℝ) * (l.y2 - l.y) = (l.y + l.y2) / 2 := by ring
  rw [ex, ey]
  constructor
  · rw [adjustLabelCoordinate_keep _ _ _ _ _ hfw hx1 hx2, hxa, add_zero]
  · rw [adjustLabelCoordinate_keep _ _ _ _ _ hfh hy1 hy2, hya, add_zero]

/-- Witness for C8: an unrotated 10 × 10 label with position `center` on
the segment (40,50)-(60,50) in the viewport [0,100] × [0,100] is
anchored at the midpoint (50, 50). -/
theorem calculateLabelPosition_center_is_midpoint_witness :
    (calculateLabelPosition ⟨40, 50, 60, 50⟩ ⟨"center", 0, 0, 6, 6, RotationOpt.deg 0⟩ 10 10
      ⟨0, 100, 100, 0⟩).x = ((40:ℝ) + 60) / 2 ∧
    (calculateLabelPosition ⟨40, 50, 60, 50⟩ ⟨"center", 0, 0, 6, 6, RotationOpt.deg 0⟩ 10 10
      ⟨0, 100, 100, 0⟩).y = ((50:ℝ) + 50) / 2 := by
  have hrot : resolveRotation (⟨"center", 0, 0, 6, 6, RotationOpt.deg 0⟩ : LabelOpts)
      (⟨40, 50, 60, 50⟩ : Line ℝ) = 0 := by
    simp [resolveRotation, toRadians]
  have hsz : rotatedSize 10 10 (resolveRotation (⟨"center", 0, 0, 6, 6, RotationOpt.deg 0⟩ :
      LabelOpts) (⟨40, 50, 60, 50⟩ : Line ℝ)) = ⟨10, 10⟩ := by
    rw [hrot]
    norm_num [rotatedSize, SizeWH.mk.injEq, Real.cos_zero, Real.sin_zero, abs_eq_max_neg, max_def]
  refine calculateLabelPosition_center_is_midpoint ⟨40, 50, 60, 50⟩
    ⟨"center", 0, 0, 6, 6, RotationOpt.deg 0⟩ 10 10 ⟨0, 100, 100, 0⟩ rfl rfl rfl
    ?_ ?_ ?_ ?_ ?_ ?_ <;> rw [hsz] <;> norm_num

end CJSA
